import Mathlib

/-!
Verification of the reservation/review data-access and validation layer of the
restaurant-finder application.  The embedded code is the FastAPI backend
described in `api-endpoints.md` (routers `reservations.py` and `reviews.py`,
models `models.py`, schema `database.py`), which is the backend consumed by the
TypeScript client in `lib/api.ts` and the React components.

Modelling conventions:
- SQLite tables are Lean lists of row structures, in rowid (insertion) order;
  `AUTOINCREMENT` ids are modelled by a `next_id` counter.
- `TEXT`/`TIMESTAMP` columns are `String`; SQLite compares `TEXT` values
  bytewise, modelled by codepoint-lexicographic comparison on `String.data`.
- `CURRENT_TIMESTAMP` is passed in explicitly as a `now : String` argument;
  within one SQL statement both `created_at` and `updated_at` defaults see the
  same value, as in SQLite.
- A `SELECT ... ORDER BY k` result is modelled relationally: any permutation of
  the rows matching the `WHERE` clause that is non-strictly sorted by `k` is an
  admissible output (SQLite specifies no tie-break for equal keys).
- SQL `AVG` is modelled over `ℚ` (exact arithmetic); Python `round(x, 2)` is
  round-half-to-even at two decimals.
- HTTP error responses raised by the routers are modelled by `ApiError`.
-/

namespace RestaurantFinder

/-- Bytewise (codepoint-lexicographic) non-strict comparison of character
lists, the order SQLite uses for `TEXT` columns under the default collation. -/
def lexLeb : List Char → List Char → Bool
  | [], _ => true
  | _ :: _, [] => false
  | a :: as, b :: bs =>
    if a.toNat < b.toNat then true
    else if b.toNat < a.toNat then false
    else lexLeb as bs

/-- Strict counterpart of `lexLeb`. -/
def lexLtb : List Char → List Char → Bool
  | [], [] => false
  | [], _ :: _ => true
  | _ :: _, [] => false
  | a :: as, b :: bs =>
    if a.toNat < b.toNat then true
    else if b.toNat < a.toNat then false
    else lexLtb as bs

/-- SQLite `TEXT` less-or-equal on strings. -/
def strLe (s t : String) : Prop := lexLeb s.data t.data = true

/-- SQLite `TEXT` strictly-less on strings. -/
def strLt (s t : String) : Prop := lexLtb s.data t.data = true

instance (s t : String) : Decidable (strLe s t) := by
  unfold strLe; infer_instance

instance (s t : String) : Decidable (strLt s t) := by
  unfold strLt; infer_instance

/-- The `status` enumeration of a reservation (`ReservationStatus` in
`models.py`, `ReservationStatus` in `types/reservation.ts`). -/
inductive ReservationStatus where
  | pending : ReservationStatus
  | confirmed : ReservationStatus
  | cancelled : ReservationStatus
deriving DecidableEq

/-- The `TEXT` value stored in the `status` column for each enum member. -/
def statusText : ReservationStatus → String
  | .pending => "pending"
  | .confirmed => "confirmed"
  | .cancelled => "cancelled"

/-- A row of the `reservations` table (`ReservationResponse` in `models.py`,
`Reservation` in `types/reservation.ts`). -/
structure Reservation where
  id : Int
  restaurant_id : String
  customer_name : String
  customer_email : String
  customer_phone : Option String
  party_size : Int
  reservation_date : String
  reservation_time : String
  status : ReservationStatus
  notes : Option String
  created_at : String
  updated_at : String
deriving DecidableEq

/-- The request body of `POST /api/reservations` (`ReservationCreate` in
`models.py`), before validation. -/
structure ReservationCreate where
  restaurant_id : String
  customer_name : String
  customer_email : String
  customer_phone : Option String
  party_size : Int
  reservation_date : String
  reservation_time : String
  notes : Option String
deriving DecidableEq

/-- The request body of `PATCH /api/reservations/id` (`ReservationUpdate` in
`models.py`).  `none` models an unset field, which pydantic
`model_dump(exclude_unset=True)` omits from the dynamic `SET` clause.
An explicit JSON `null` for a nullable column is not distinguished here; no
claim depends on it. -/
structure ReservationUpdate where
  customer_name : Option String := none
  customer_email : Option String := none
  customer_phone : Option String := none
  party_size : Option Int := none
  reservation_date : Option String := none
  reservation_time : Option String := none
  status : Option ReservationStatus := none
  notes : Option String := none
deriving DecidableEq

/-- A row of the `reviews` table (`ReviewResponse` in `models.py`, `Review` in
`types/review.ts`). -/
structure Review where
  id : Int
  restaurant_id : String
  reviewer_name : String
  reviewer_email : Option String
  rating : Int
  title : Option String
  comment : Option String
  visit_date : Option String
  created_at : String
deriving DecidableEq

/-- The aggregate part of the reviews response (`ReviewStats` in `models.py`
and `types/review.ts`): `avg_rating` nullable number, `total_reviews` count. -/
structure ReviewStats where
  avg_rating : Option ℚ
  total_reviews : Nat
deriving DecidableEq

/-- The body of `GET /api/reviews` (`ReviewsWithStats` in `models.py`,
`ReviewsResponse` in `types/review.ts`). -/
structure ReviewsWithStats where
  reviews : List Review
  stats : ReviewStats

/-- JSON values, for stating the serialized response shape. -/
inductive JsonVal where
  | jnull : JsonVal
  | jnum : ℚ → JsonVal
  | jint : ℤ → JsonVal
  | jstr : String → JsonVal
  | jarr : List JsonVal → JsonVal
  | jobj : List (String × JsonVal) → JsonVal

/-- Serialization of an optional string field. -/
def jsonOfOptStr : Option String → JsonVal
  | none => JsonVal.jnull
  | some s => JsonVal.jstr s

/-- Pydantic serialization of `ReviewStats`: field names and order exactly as
declared in `models.py`. -/
def ReviewStats.toJson (s : ReviewStats) : List (String × JsonVal) :=
  [("avg_rating", match s.avg_rating with
      | none => JsonVal.jnull
      | some q => JsonVal.jnum q),
   ("total_reviews", JsonVal.jint (s.total_reviews : ℤ))]

/-- Pydantic serialization of `ReviewResponse`, field order as declared. -/
def Review.toJson (r : Review) : List (String × JsonVal) :=
  [("id", JsonVal.jint r.id),
   ("restaurant_id", JsonVal.jstr r.restaurant_id),
   ("reviewer_name", JsonVal.jstr r.reviewer_name),
   ("reviewer_email", jsonOfOptStr r.reviewer_email),
   ("rating", JsonVal.jint r.rating),
   ("title", jsonOfOptStr r.title),
   ("comment", jsonOfOptStr r.comment),
   ("visit_date", jsonOfOptStr r.visit_date),
   ("created_at", JsonVal.jstr r.created_at)]

/-- Pydantic serialization of `ReviewsWithStats`. -/
def ReviewsWithStats.toJson (w : ReviewsWithStats) : List (String × JsonVal) :=
  [("reviews", JsonVal.jarr (w.reviews.map (fun r => JsonVal.jobj r.toJson))),
   ("stats", JsonVal.jobj w.stats.toJson)]

/-- Sort keys accepted by `GET /api/reviews` (`sort_by` query parameter,
regex-validated to `created_at` or `rating`). -/
inductive SortBy where
  | created_at : SortBy
  | rating : SortBy
deriving DecidableEq

/-- Sort directions accepted by `GET /api/reviews` (`order` query parameter,
regex-validated to `asc` or `desc`). -/
inductive SortOrder where
  | asc : SortOrder
  | desc : SortOrder
deriving DecidableEq

/-- SQL text interpolated for the sort key (source: `ORDER BY {sort_by}`). -/
def sortByText : SortBy → String
  | .created_at => "created_at"
  | .rating => "rating"

/-- SQL text interpolated for the direction (source: `{order.upper()}`). -/
def orderText : SortOrder → String
  | .asc => "ASC"
  | .desc => "DESC"

/-- The `WHERE` clause built by `get_reviews`: each filter is appended only
when the Python value is truthy (`if restaurant_id:` skips `None` and the
empty string; `if min_rating:` skips `None` and `0`). -/
def reviewMatch (rid : Option String) (minRating : Option Int) (r : Review) : Bool :=
  (match rid with
   | some s => if s.isEmpty then true else r.restaurant_id == s
   | none => true)
  &&
  (match minRating with
   | some m => if m == 0 then true else decide (m ≤ r.rating)
   | none => true)

/-- The `WHERE` clause of the stats query in `get_reviews`: it filters on
`restaurant_id` only — `min_rating` is never added to the stats query. -/
def reviewRestaurantFilter (rid : Option String) (r : Review) : Bool :=
  match rid with
  | some s => if s.isEmpty then true else r.restaurant_id == s
  | none => true

/-- The row order demanded by `ORDER BY {sort_by} {order}` in `get_reviews`,
as a non-strict relation between adjacent output rows. -/
def reviewLe (sb : SortBy) (o : SortOrder) (a b : Review) : Prop :=
  match sb, o with
  | .created_at, .asc => strLe a.created_at b.created_at
  | .created_at, .desc => strLe b.created_at a.created_at
  | .rating, .asc => a.rating ≤ b.rating
  | .rating, .desc => b.rating ≤ a.rating

instance (sb : SortBy) (o : SortOrder) (a b : Review) :
    Decidable (reviewLe sb o a b) := by
  cases sb <;> cases o <;> unfold reviewLe <;> infer_instance

/-- Relational semantics of the review list query in `get_reviews`: an output
is admissible when it is a permutation of the rows matching the `WHERE` clause
and is non-strictly sorted per the `ORDER BY` clause.  SQLite fixes nothing
more for equal sort keys. -/
def get_reviews_result (table : List Review) (rid : Option String)
    (minRating : Option Int) (sb : SortBy) (o : SortOrder)
    (out : List Review) : Prop :=
  out.Perm (table.filter (reviewMatch rid minRating)) ∧ out.Pairwise (reviewLe sb o)

instance (table : List Review) (rid : Option String) (minRating : Option Int)
    (sb : SortBy) (o : SortOrder) (out : List Review) :
    Decidable (get_reviews_result table rid minRating sb o out) := by
  unfold get_reviews_result; infer_instance

/-- Round-half-to-even to an integer, the semantics of Python `round` (the
aggregate is modelled in exact arithmetic). -/
def roundHalfEven (q : ℚ) : ℤ :=
  let f : ℤ := ⌊q⌋
  let r : ℚ := q - (f : ℚ)
  if r < 1 / 2 then f
  else if 1 / 2 < r then f + 1
  else if f % 2 = 0 then f else f + 1

/-- Python `round(x, 2)`: round-half-to-even at two decimal places. -/
def round2 (q : ℚ) : ℚ := ((roundHalfEven (q * 100) : ℤ) : ℚ) / 100

/-- The stats computation of `get_reviews`: `SELECT AVG(rating) as avg_rating,
COUNT(*) as total_reviews FROM reviews [WHERE restaurant_id = ?]`, followed by
`round(row.avg_rating, 2) if row.avg_rating else None` — note the Python
truthiness test, which maps both SQL `NULL` (no rows) and an average of `0`
to `None`. -/
def review_stats (table : List Review) (rid : Option String) : ReviewStats :=
  let rows := table.filter (reviewRestaurantFilter rid)
  let total := rows.length
  let rawAvg : Option ℚ :=
    if total = 0 then none
    else some ((rows.map (fun r => (r.rating : ℚ))).sum / (total : ℚ))
  { avg_rating :=
      match rawAvg with
      | none => none
      | some a => if a = 0 then none else some (round2 a)
    , total_reviews := total }

/-- The stats part of the `get_reviews` handler.  The handler receives the
`min_rating` query parameter but the stats query it builds never uses it. -/
def get_reviews_stats (table : List Review) (rid : Option String)
    (minRating : Option Int) : ReviewStats :=
  review_stats table rid

/-- The `(query text, bound parameters)` pair built by `get_reviews` for the
review list; user input only ever enters the parameter list. -/
def build_reviews_query (rid : Option String) (minRating : Option Int)
    (sb : SortBy) (o : SortOrder) : String × List String :=
  let q := "SELECT * FROM reviews WHERE 1=1"
  let p : List String := []
  let (q, p) :=
    match rid with
    | some s => if s.isEmpty then (q, p) else (q ++ " AND restaurant_id = ?", p ++ [s])
    | none => (q, p)
  let (q, p) :=
    match minRating with
    | some m => if m == 0 then (q, p) else (q ++ " AND rating >= ?", p ++ [toString m])
    | none => (q, p)
  (q ++ " ORDER BY " ++ sortByText sb ++ " " ++ orderText o, p)

/-- The `(query text, bound parameters)` pair built by `get_reviews` for the
stats aggregate. -/
def build_review_stats_query (rid : Option String) : String × List String :=
  let q := "SELECT AVG(rating) as avg_rating, COUNT(*) as total_reviews FROM reviews"
  match rid with
  | some s => if s.isEmpty then (q, []) else (q ++ " WHERE restaurant_id = ?", [s])
  | none => (q, [])

/-- The `WHERE` clause built by `get_reservations`: conjunctive filters, each
appended only when the Python query value is truthy. -/
def resMatch (rid statusFilter : Option String) (r : Reservation) : Bool :=
  (match rid with
   | some s => if s.isEmpty then true else r.restaurant_id == s
   | none => true)
  &&
  (match statusFilter with
   | some s => if s.isEmpty then true else statusText r.status == s
   | none => true)

/-- The row order demanded by `ORDER BY reservation_date, reservation_time`
in `get_reservations`: lexicographic on the (date, time) text pair. -/
def resDateTimeLe (a b : Reservation) : Prop :=
  strLt a.reservation_date b.reservation_date ∨
    (a.reservation_date = b.reservation_date ∧
      strLe a.reservation_time b.reservation_time)

instance (a b : Reservation) : Decidable (resDateTimeLe a b) := by
  unfold resDateTimeLe; infer_instance

/-- Relational semantics of the `get_reservations` list query, as for
`get_reviews_result`. -/
def get_reservations_result (table : List Reservation)
    (rid statusFilter : Option String) (out : List Reservation) : Prop :=
  out.Perm (table.filter (resMatch rid statusFilter)) ∧ out.Pairwise resDateTimeLe

instance (table : List Reservation) (rid statusFilter : Option String)
    (out : List Reservation) :
    Decidable (get_reservations_result table rid statusFilter out) := by
  unfold get_reservations_result; infer_instance

/-- The `(query text, bound parameters)` pair built by `get_reservations`. -/
def build_reservations_query (rid statusFilter : Option String) :
    String × List String :=
  let q := "SELECT * FROM reservations WHERE 1=1"
  let p : List String := []
  let (q, p) :=
    match rid with
    | some s => if s.isEmpty then (q, p) else (q ++ " AND restaurant_id = ?", p ++ [s])
    | none => (q, p)
  let (q, p) :=
    match statusFilter with
    | some s => if s.isEmpty then (q, p) else (q ++ " AND status = ?", p ++ [s])
    | none => (q, p)
  (q ++ " ORDER BY reservation_date, reservation_time", p)

/-- Error outcomes of the reservation endpoints: the 404 raised on a missing
id, the 400 raised by `update_reservation` on an empty patch, and the 422 the
framework returns when the pydantic request model rejects the body. -/
inductive ApiError where
  | notFound : ApiError
  | noFieldsToUpdate : ApiError
  | validationFailed : ApiError
deriving DecidableEq

/-- The `reservations` table plus the `AUTOINCREMENT` id counter. -/
structure ReservationDb where
  rows : List Reservation
  next_id : Int
deriving DecidableEq

/-- Well-formedness maintained by SQLite `AUTOINCREMENT`: every stored id is
below the next id to be handed out (hence ids are never reissued). -/
def dbWf (db : ReservationDb) : Prop :=
  ∀ r ∈ db.rows, r.id < db.next_id

/-- The pydantic field constraints of `ReservationCreate`: `party_size`
between 1 and 20, `customer_name` length between 1 and 100.  The `EmailStr`
format check is performed by an external library and is not modelled; no claim
depends on it. -/
def reservationCreateValid (c : ReservationCreate) : Bool :=
  decide (1 ≤ c.party_size) && decide (c.party_size ≤ 20) &&
  decide (1 ≤ c.customer_name.length) && decide (c.customer_name.length ≤ 100)

/-- The row inserted by `create_reservation`: the `INSERT` names no `id`,
`status` or timestamps, so the schema defaults apply — generated id, status
`pending`, and `created_at` and `updated_at` both set to the statement's
`CURRENT_TIMESTAMP`. -/
def newReservationRow (db : ReservationDb) (c : ReservationCreate)
    (now : String) : Reservation :=
  { id := db.next_id
  , restaurant_id := c.restaurant_id
  , customer_name := c.customer_name
  , customer_email := c.customer_email
  , customer_phone := c.customer_phone
  , party_size := c.party_size
  , reservation_date := c.reservation_date
  , reservation_time := c.reservation_time
  , status := ReservationStatus.pending
  , notes := c.notes
  , created_at := now
  , updated_at := now }

/-- `POST /api/reservations`: pydantic validation of the request model, then
the handler's `INSERT` followed by re-`SELECT` of the inserted row.  On a
validation failure the handler never runs, so the table is unchanged. -/
def create_reservation (db : ReservationDb) (c : ReservationCreate)
    (now : String) : ReservationDb × Except ApiError Reservation :=
  if reservationCreateValid c then
    ({ rows := db.rows ++ [newReservationRow db c now]
     , next_id := db.next_id + 1 }
    , Except.ok (newReservationRow db c now))
  else (db, Except.error ApiError.validationFailed)

/-- `GET /api/reservations/id`: `SELECT * FROM reservations WHERE id = ?`,
404 when no row matches. -/
def get_reservation (db : ReservationDb) (i : Int) : Except ApiError Reservation :=
  match db.rows.find? (fun r => r.id == i) with
  | some r => Except.ok r
  | none => Except.error ApiError.notFound

/-- Whether `model_dump(exclude_unset=True)` of the patch is empty. -/
def patchIsEmpty (u : ReservationUpdate) : Bool :=
  u.customer_name.isNone && u.customer_email.isNone && u.customer_phone.isNone &&
  u.party_size.isNone && u.reservation_date.isNone && u.reservation_time.isNone &&
  u.status.isNone && u.notes.isNone

/-- The dynamic `SET` clause of `update_reservation` applied to one row: each
present patch field overwrites its column, `updated_at = CURRENT_TIMESTAMP` is
always appended, everything else is untouched. -/
def applyPatch (r : Reservation) (u : ReservationUpdate) (now : String) :
    Reservation :=
  { r with
    customer_name := u.customer_name.getD r.customer_name
  , customer_email := u.customer_email.getD r.customer_email
  , customer_phone := match u.customer_phone with
      | some v => some v
      | none => r.customer_phone
  , party_size := u.party_size.getD r.party_size
  , reservation_date := u.reservation_date.getD r.reservation_date
  , reservation_time := u.reservation_time.getD r.reservation_time
  , status := u.status.getD r.status
  , notes := match u.notes with
      | some v => some v
      | none => r.notes
  , updated_at := now }

/-- `PATCH /api/reservations/id`: existence check (404), empty-patch check
(400 No fields to update), dynamic `UPDATE`, then re-`SELECT` of the row. -/
def update_reservation (db : ReservationDb) (i : Int) (u : ReservationUpdate)
    (now : String) : ReservationDb × Except ApiError Reservation :=
  match db.rows.find? (fun r => r.id == i) with
  | none => (db, Except.error ApiError.notFound)
  | some _ =>
    if patchIsEmpty u then (db, Except.error ApiError.noFieldsToUpdate)
    else
      let rows := db.rows.map (fun r => if r.id == i then applyPatch r u now else r)
      match rows.find? (fun r => r.id == i) with
      | some r => ({ db with rows := rows }, Except.ok r)
      | none => ({ db with rows := rows }, Except.error ApiError.notFound)

/-- A concrete review row used by witnesses and counterexamples. -/
def exampleReview : Review :=
  { id := 1, restaurant_id := "r1", reviewer_name := "A"
  , reviewer_email := none, rating := 5, title := none, comment := none
  , visit_date := none, created_at := "2024-01-01 10:00:00" }

/-- A second concrete review, created one day later with rating 3. -/
def exampleReview2 : Review :=
  { exampleReview with
      id := 2, reviewer_name := "B", rating := 3,
      created_at := "2024-01-02 10:00:00" }

/-- A third concrete review, created two days later with rating 4. -/
def exampleReview3 : Review :=
  { exampleReview with
      id := 3, reviewer_name := "C", rating := 4,
      created_at := "2024-01-03 10:00:00" }

/-- The concrete review set of the spec scenario: ratings 5, 3, 4 for
restaurant `r1`. -/
def exampleReviews : List Review :=
  [exampleReview, exampleReview2, exampleReview3]

/-- Two reviews for `r1` with equal `created_at` and distinct ids. -/
def tieReviewA : Review := { exampleReview with rating := 4 }

/-- The second half of the equal-timestamp pair; larger id, same instant. -/
def tieReviewB : Review := { exampleReview with id := 2, reviewer_name := "B" }

/-- Two reviews for `r1` with ratings 5 and 1, to separate the filtered list
length from the unfiltered aggregate count. -/
def exampleReviewsMixed : List Review :=
  [exampleReview, { exampleReview with id := 2, reviewer_name := "B", rating := 1 }]

/-- A concrete pending reservation row used by witnesses. -/
def exampleRow : Reservation :=
  { id := 1, restaurant_id := "r1", customer_name := "A"
  , customer_email := "a@x.com", customer_phone := none, party_size := 4
  , reservation_date := "2024-12-25", reservation_time := "19:00"
  , status := ReservationStatus.pending, notes := none
  , created_at := "2024-12-20 10:00:00", updated_at := "2024-12-20 10:00:00" }

/-- A concrete cancelled reservation row used by witnesses. -/
def exampleCancelledRow : Reservation :=
  { exampleRow with status := ReservationStatus.cancelled }

/-- A reservation one day earlier than `exampleRow`, inserted after it. -/
def exampleRowEarly : Reservation :=
  { exampleRow with id := 2, reservation_date := "2024-12-24" }

/-- A two-row reservation table stored out of (date, time) order. -/
def exampleReservations : List Reservation :=
  [exampleRow, exampleRowEarly]

/-- A list of rationals that are all at least one has sum at least its length. -/
theorem length_le_sum_of_one_le (l : List ℚ) (h : ∀ x ∈ l, 1 ≤ x) :
    (l.length : ℚ) ≤ l.sum := by
  induction l with
  | nil => simp
  | cons a t ih =>
    have ha := h a (List.mem_cons_self a t)
    have ht := ih (fun x hx => h x (List.mem_cons_of_mem _ hx))
    simp only [List.length_cons, List.sum_cons]
    push_cast
    linarith

/-- A valid creation body has its party size within the pydantic bounds. -/
theorem reservationCreateValid_party (c : ReservationCreate)
    (h : reservationCreateValid c = true) :
    1 ≤ c.party_size ∧ c.party_size ≤ 20 := by
  simp only [reservationCreateValid, Bool.and_eq_true, decide_eq_true_eq] at h
  exact ⟨h.1.1.1, h.1.1.2⟩

/-- The patch application never touches the row id. -/
theorem applyPatch_id (r : Reservation) (u : ReservationUpdate) (now : String) :
    (applyPatch r u now).id = r.id := rfl

/-- Updating the matching row in place commutes with row lookup by id. -/
theorem find?_map_applyPatch (l : List Reservation) (i : Int)
    (u : ReservationUpdate) (now : String) (row : Reservation)
    (h : l.find? (fun r => r.id == i) = some row) :
    (l.map (fun r => if r.id == i then applyPatch r u now else r)).find?
        (fun r => r.id == i) = some (applyPatch row u now) := by
  induction l with
  | nil => simp at h
  | cons a l ih =>
    simp only [List.map_cons, List.find?_cons] at h ⊢
    cases ha : a.id == i with
    | true =>
      rw [ha] at h
      simp only [Option.some.injEq] at h
      subst h
      have hb : ((applyPatch a u now).id == i) = true := by
        rw [applyPatch_id]; exact ha
      simp [ha, hb]
    | false =>
      simp only [ha] at h ⊢
      simp only [Bool.false_eq_true, if_false, ha]
      exact ih h

/-- C2: for every valid `ReservationCreate` body, `create` followed by `get`
of the returned id yields a row whose mutable fields equal the input, whose
status is `pending`, whose id is the generated integer, and whose `created_at`
equals `updated_at`. -/
theorem create_then_get_roundtrip (db : ReservationDb) (c : ReservationCreate)
    (now : String) (hwf : dbWf db) (hv : reservationCreateValid c = true) :
    ∃ row : Reservation,
      (create_reservation db c now).2 = Except.ok row ∧
      get_reservation (create_reservation db c now).1 row.id = Except.ok row ∧
      row.restaurant_id = c.restaurant_id ∧
      row.customer_name = c.customer_name ∧
      row.customer_email = c.customer_email ∧
      row.customer_phone = c.customer_phone ∧
      row.party_size = c.party_size ∧
      row.reservation_date = c.reservation_date ∧
      row.reservation_time = c.reservation_time ∧
      row.notes = c.notes ∧
      row.status = ReservationStatus.pending ∧
      row.id = db.next_id ∧
      row.created_at = row.updated_at := by
  refine ⟨newReservationRow db c now, ?_, ?_, rfl, rfl, rfl, rfl, rfl, rfl, rfl,
    rfl, rfl, rfl, rfl⟩
  · simp [create_reservation, hv]
  · have hnone : db.rows.find? (fun r => r.id == db.next_id) = none :=
      List.find?_eq_none.mpr (fun r hr => by
        have := hwf r hr
        simp only [beq_iff_eq]
        omega)
    have hfind : (db.rows ++ [newReservationRow db c now]).find?
        (fun r => r.id == db.next_id) = some (newReservationRow db c now) := by
      rw [List.find?_append, hnone]
      simp [newReservationRow]
    simp [create_reservation, hv, get_reservation, newReservationRow, hfind,
      List.find?_append, hnone, Option.none_or]

/-- C2 witness: a concrete creation against an empty table. -/
theorem create_then_get_roundtrip_witness :
    dbWf { rows := [], next_id := 1 } ∧
    reservationCreateValid
      { restaurant_id := "r1", customer_name := "A", customer_email := "a@x.com"
      , customer_phone := none, party_size := 4
      , reservation_date := "2024-12-25", reservation_time := "19:00"
      , notes := none } = true ∧
    ∃ row : Reservation,
      (create_reservation { rows := [], next_id := 1 }
        { restaurant_id := "r1", customer_name := "A", customer_email := "a@x.com"
        , customer_phone := none, party_size := 4
        , reservation_date := "2024-12-25", reservation_time := "19:00"
        , notes := none } "2024-12-20 10:00:00").2 = Except.ok row ∧
      get_reservation (create_reservation { rows := [], next_id := 1 }
        { restaurant_id := "r1", customer_name := "A", customer_email := "a@x.com"
        , customer_phone := none, party_size := 4
        , reservation_date := "2024-12-25", reservation_time := "19:00"
        , notes := none } "2024-12-20 10:00:00").1 row.id = Except.ok row ∧
      row.restaurant_id = "r1" ∧
      row.customer_name = "A" ∧
      row.customer_email = "a@x.com" ∧
      row.customer_phone = none ∧
      row.party_size = 4 ∧
      row.reservation_date = "2024-12-25" ∧
      row.reservation_time = "19:00" ∧
      row.notes = none ∧
      row.status = ReservationStatus.pending ∧
      row.id = 1 ∧
      row.created_at = row.updated_at := by
  refine ⟨fun r hr => by simp at hr, by decide, ?_⟩
  exact create_then_get_roundtrip { rows := [], next_id := 1 } _ _
    (fun r hr => by simp at hr) (by decide)

/-- C3: a creation body whose party size lies outside the range 1 to 20 is
rejected by request-model validation, and the stored table is unchanged. -/
theorem create_party_size_out_of_range_rejected (db : ReservationDb)
    (c : ReservationCreate) (now : String)
    (h : c.party_size < 1 ∨ 20 < c.party_size) :
    create_reservation db c now = (db, Except.error ApiError.validationFailed) := by
  have hv : reservationCreateValid c = false := by
    rcases h with h | h <;>
      simp only [reservationCreateValid, Bool.and_eq_false_iff,
        decide_eq_false_iff_not, not_le] <;> omega
  simp [create_reservation, hv]

/-- C3 witness: a party of 21 is rejected and persists nothing. -/
theorem create_party_size_out_of_range_rejected_witness :
    ((21 : Int) < 1 ∨ 20 < (21 : Int)) ∧
    create_reservation { rows := [], next_id := 1 }
      { restaurant_id := "r1", customer_name := "A", customer_email := "a@x.com"
      , customer_phone := none, party_size := 21
      , reservation_date := "2024-12-25", reservation_time := "19:00"
      , notes := none } "2024-12-20 10:00:00"
      = ({ rows := [], next_id := 1 }, Except.error ApiError.validationFailed) :=
  ⟨by decide, create_party_size_out_of_range_rejected _ _ _ (by decide)⟩

/-- C4: for an existing reservation id, an empty patch is rejected with the
400 validation error and the table is unchanged; a non-empty patch succeeds
and yields a row in which every present field takes the patched value, every
absent field keeps the stored value, `updated_at` is refreshed to the
statement timestamp, and `id`, `restaurant_id` and `created_at` are
untouched. -/
theorem update_empty_patch_rejected_and_patch_frame
    (db : ReservationDb) (i : Int) (u : ReservationUpdate) (now : String)
    (row : Reservation)
    (hfind : db.rows.find? (fun r => r.id == i) = some row) :
    update_reservation db i {} now = (db, Except.error ApiError.noFieldsToUpdate) ∧
    (patchIsEmpty u = false →
      ∃ row2 : Reservation,
        (update_reservation db i u now).2 = Except.ok row2 ∧
        row2.updated_at = now ∧
        row2.id = row.id ∧
        row2.created_at = row.created_at ∧
        row2.restaurant_id = row.restaurant_id ∧
        (u.customer_name = none → row2.customer_name = row.customer_name) ∧
        (∀ v, u.customer_name = some v → row2.customer_name = v) ∧
        (u.customer_email = none → row2.customer_email = row.customer_email) ∧
        (∀ v, u.customer_email = some v → row2.customer_email = v) ∧
        (u.customer_phone = none → row2.customer_phone = row.customer_phone) ∧
        (∀ v, u.customer_phone = some v → row2.customer_phone = some v) ∧
        (u.party_size = none → row2.party_size = row.party_size) ∧
        (∀ v, u.party_size = some v → row2.party_size = v) ∧
        (u.reservation_date = none → row2.reservation_date = row.reservation_date) ∧
        (∀ v, u.reservation_date = some v → row2.reservation_date = v) ∧
        (u.reservation_time = none → row2.reservation_time = row.reservation_time) ∧
        (∀ v, u.reservation_time = some v → row2.reservation_time = v) ∧
        (u.status = none → row2.status = row.status) ∧
        (∀ v, u.status = some v → row2.status = v) ∧
        (u.notes = none → row2.notes = row.notes) ∧
        (∀ v, u.notes = some v → row2.notes = some v)) := by
  constructor
  · simp [update_reservation, hfind, patchIsEmpty]
  · intro hne
    refine ⟨applyPatch row u now, ?_, rfl, rfl, rfl, rfl, ?_⟩
    · have hmap := find?_map_applyPatch db.rows i u now row hfind
      simp only [update_reservation, hfind, hne, Bool.false_eq_true, if_false, hmap]
    · refine ⟨?_, ?_, ?_, ?_, ?_, ?_, ?_, ?_, ?_, ?_, ?_, ?_, ?_, ?_, ?_, ?_⟩ <;>
        first
          | (intro hu; simp [applyPatch, hu])
          | (intro v hu; simp [applyPatch, hu])

/-- C4 witness: a one-field party-size patch against a one-row table. -/
theorem update_empty_patch_rejected_and_patch_frame_witness :
    ([exampleRow].find? (fun r => r.id == 1) = some exampleRow) ∧
    patchIsEmpty { party_size := some 6 } = false ∧
    update_reservation { rows := [exampleRow], next_id := 2 } 1 {}
        "2024-12-21 09:00:00"
      = ({ rows := [exampleRow], next_id := 2 },
          Except.error ApiError.noFieldsToUpdate) ∧
    ∃ row2 : Reservation,
      (update_reservation { rows := [exampleRow], next_id := 2 } 1
          { party_size := some 6 } "2024-12-21 09:00:00").2 = Except.ok row2 ∧
      row2.updated_at = "2024-12-21 09:00:00" ∧
      row2.party_size = 6 ∧
      row2.customer_name = exampleRow.customer_name ∧
      row2.status = exampleRow.status ∧
      row2.created_at = exampleRow.created_at := by
  have h := update_empty_patch_rejected_and_patch_frame
    { rows := [exampleRow], next_id := 2 } 1 { party_size := some 6 }
    "2024-12-21 09:00:00" exampleRow (by decide)
  obtain ⟨row2, h1, h2, _, h4, _, h6, _, _, _, _, _, _, h13, _, _, _, _, h18, _, _⟩ :=
    h.2 (by decide)
  exact ⟨by decide, by decide, h.1,
    row2, h1, h2, h13 6 rfl, h6 rfl, h18 rfl, h4⟩

/-- C10: updating an existing reservation with any target status from the
enumeration succeeds — the code restricts no status transition, so a
cancelled reservation can be set back to confirmed or pending. -/
theorem update_status_unrestricted (db : ReservationDb) (i : Int)
    (now : String) (row : Reservation) (s : ReservationStatus)
    (hfind : db.rows.find? (fun r => r.id == i) = some row) :
    ∃ row2 : Reservation,
      (update_reservation db i { status := some s } now).2 = Except.ok row2 ∧
      row2.status = s := by
  have hne : patchIsEmpty { status := some s } = false := by
    simp [patchIsEmpty]
  have hmap := find?_map_applyPatch db.rows i { status := some s } now row hfind
  refine ⟨applyPatch row { status := some s } now, ?_, rfl⟩
  simp only [update_reservation, hfind, hne, Bool.false_eq_true, if_false, hmap]

/-- C10 witness: a cancelled reservation is set back to confirmed. -/
theorem update_status_unrestricted_witness :
    ([exampleCancelledRow].find? (fun r => r.id == 1) = some exampleCancelledRow) ∧
    exampleCancelledRow.status = ReservationStatus.cancelled ∧
    ∃ row2 : Reservation,
      (update_reservation { rows := [exampleCancelledRow], next_id := 2 } 1
          { status := some ReservationStatus.confirmed }
          "2024-12-21 09:00:00").2 = Except.ok row2 ∧
      row2.status = ReservationStatus.confirmed :=
  ⟨by decide, by decide,
    update_status_unrestricted { rows := [exampleCancelledRow], next_id := 2 }
      1 "2024-12-21 09:00:00" exampleCancelledRow
      ReservationStatus.confirmed (by decide)⟩

/-- C1: over a table whose ratings satisfy the schema check `rating` between
1 and 5, the stats query for a (truthy) restaurant id reports
`total_reviews` equal to the number of that restaurant's reviews and
`avg_rating` equal to their mean rounded to two decimals, or null when the
restaurant has no reviews. -/
theorem review_stats_count_and_rounded_mean (table : List Review) (rid : String)
    (hrid : rid.isEmpty = false)
    (hval : ∀ r ∈ table, 1 ≤ r.rating ∧ r.rating ≤ 5) :
    (review_stats table (some rid)).total_reviews
        = (table.filter (fun r => r.restaurant_id == rid)).length ∧
    (review_stats table (some rid)).avg_rating
        = (if (table.filter (fun r => r.restaurant_id == rid)).length = 0 then none
           else some (round2
              (((table.filter (fun r => r.restaurant_id == rid)).map
                  (fun r => (r.rating : ℚ))).sum
                / ((table.filter (fun r => r.restaurant_id == rid)).length : ℚ)))) := by
  have hfilter : table.filter (reviewRestaurantFilter (some rid))
      = table.filter (fun r => r.restaurant_id == rid) :=
    List.filter_congr (fun r _ => by simp [reviewRestaurantFilter, hrid])
  constructor
  · simp only [review_stats, hfilter]
  · by_cases hz : (table.filter (fun r => r.restaurant_id == rid)).length = 0
    · simp only [review_stats, hfilter, hz, if_true, if_pos]
    · have hmem : ∀ x ∈ (table.filter (fun r => r.restaurant_id == rid)).map
          (fun r => (r.rating : ℚ)), 1 ≤ x := by
        intro x hx
        obtain ⟨r, hr, rfl⟩ := List.mem_map.mp hx
        exact_mod_cast (hval r (List.mem_of_mem_filter hr)).1
      have hsum : (((table.filter (fun r => r.restaurant_id == rid)).length : ℚ))
          ≤ ((table.filter (fun r => r.restaurant_id == rid)).map
              (fun r => (r.rating : ℚ))).sum := by
        have := length_le_sum_of_one_le _ hmem
        simpa using this
      have hlenpos : (0 : ℚ) <
          ((table.filter (fun r => r.restaurant_id == rid)).length : ℚ) := by
        exact_mod_cast Nat.pos_of_ne_zero hz
      have hpos : (0 : ℚ) <
          ((table.filter (fun r => r.restaurant_id == rid)).map
              (fun r => (r.rating : ℚ))).sum
            / ((table.filter (fun r => r.restaurant_id == rid)).length : ℚ) :=
        div_pos (lt_of_lt_of_le hlenpos hsum) hlenpos
      simp only [review_stats, hfilter, hz, if_false, hpos.ne', ite_false]

/-- C1 witness: ratings 5, 3 and 4 for restaurant `r1` give three reviews
with rounded average 4. -/
theorem review_stats_count_and_rounded_mean_witness :
    ("r1" : String).isEmpty = false ∧
    (∀ r ∈ exampleReviews, 1 ≤ r.rating ∧ r.rating ≤ 5) ∧
    (review_stats exampleReviews (some "r1")).total_reviews = 3 ∧
    (review_stats exampleReviews (some "r1")).avg_rating = some 4 := by
  have h := review_stats_count_and_rounded_mean exampleReviews "r1"
    (by decide) (by decide)
  refine ⟨by decide, by decide, ?_, ?_⟩
  · rw [h.1]; decide
  · rw [h.2]
    have hfl : exampleReviews.filter (fun r => r.restaurant_id == "r1")
        = exampleReviews := by decide
    rw [hfl]
    have hlen : exampleReviews.length = 3 := by decide
    have hsum : (exampleReviews.map (fun r => (r.rating : ℚ))).sum = 12 := by
      norm_num [exampleReviews, exampleReview, exampleReview2, exampleReview3]
    rw [hlen, hsum, if_neg (by norm_num)]
    have havg : ((12 : ℚ) / ((3 : ℕ) : ℚ)) = 4 := by norm_num
    rw [havg]
    have h400 : roundHalfEven ((4 : ℚ) * 100) = 400 := by
      unfold roundHalfEven
      norm_num
    unfold round2
    rw [h400]
    norm_num

/-- C5 counterexample: with two reviews of equal `created_at` and ids 1 and 2,
both adjacent orders are admissible outputs of the default
`ORDER BY created_at DESC` query, and they differ — so the default order is
not deterministic for equal timestamps and in particular is not tie-broken by
id descending: the id-ascending output is admissible too. -/
theorem default_review_order_tiebreak_counterexample :
    get_reviews_result [tieReviewA, tieReviewB] (some "r1") none
      SortBy.created_at SortOrder.desc [tieReviewA, tieReviewB] ∧
    get_reviews_result [tieReviewA, tieReviewB] (some "r1") none
      SortBy.created_at SortOrder.desc [tieReviewB, tieReviewA] ∧
    [tieReviewA, tieReviewB] ≠ [tieReviewB, tieReviewA] :=
  ⟨by decide, by decide, by decide⟩

/-- C5 amended: every admissible output of the default review list query is
non-strictly sorted by `created_at` descending (with no guaranteed tie-break
for equal timestamps), every admissible output under `sortBy=rating` with
`order=asc` is non-strictly sorted by ascending rating, and both list exactly
the rows matching the filters. -/
theorem review_order_sorted_amended (table : List Review) (rid : Option String)
    (minRating : Option Int) (outD outR : List Review)
    (h1 : get_reviews_result table rid minRating SortBy.created_at
      SortOrder.desc outD)
    (h2 : get_reviews_result table rid minRating SortBy.rating
      SortOrder.asc outR) :
    outD.Pairwise (fun a b => strLe b.created_at a.created_at) ∧
    outD.Perm (table.filter (reviewMatch rid minRating)) ∧
    outR.Pairwise (fun a b => a.rating ≤ b.rating) ∧
    outR.Perm (table.filter (reviewMatch rid minRating)) :=
  ⟨h1.2, h1.1, h2.2, h2.1⟩

/-- C5 witness: the three-review table, listed newest-first by default and by
ascending rating under `sortBy=rating&order=asc`. -/
theorem review_order_sorted_amended_witness :
    get_reviews_result exampleReviews (some "r1") none SortBy.created_at
      SortOrder.desc [exampleReview3, exampleReview2, exampleReview] ∧
    get_reviews_result exampleReviews (some "r1") none SortBy.rating
      SortOrder.asc [exampleReview2, exampleReview3, exampleReview] ∧
    ([exampleReview3, exampleReview2, exampleReview].Pairwise
        (fun a b => strLe b.created_at a.created_at) ∧
      [exampleReview3, exampleReview2, exampleReview].Perm
        (exampleReviews.filter (reviewMatch (some "r1") none)) ∧
      [exampleReview2, exampleReview3, exampleReview].Pairwise
        (fun a b => a.rating ≤ b.rating) ∧
      [exampleReview2, exampleReview3, exampleReview].Perm
        (exampleReviews.filter (reviewMatch (some "r1") none))) :=
  ⟨by decide, by decide,
    review_order_sorted_amended exampleReviews (some "r1") none _ _
      (by decide) (by decide)⟩

/-- C6: every admissible output of the reservation list query is non-strictly
sorted by (reservation_date, reservation_time) ascending whatever the
insertion order; an empty filter lists all rows; and the restaurantId and
status filters combine conjunctively. -/
theorem reservation_list_order_and_filters (table : List Reservation)
    (rid st : String) (hr : rid.isEmpty = false) (hs : st.isEmpty = false)
    (outAll outF : List Reservation)
    (hAll : get_reservations_result table none none outAll)
    (hF : get_reservations_result table (some rid) (some st) outF) :
    outAll.Perm table ∧
    outAll.Pairwise resDateTimeLe ∧
    outF.Perm (table.filter
      (fun r => r.restaurant_id == rid && statusText r.status == st)) ∧
    outF.Pairwise resDateTimeLe := by
  have hall : table.filter (resMatch none none) = table :=
    List.filter_eq_self.mpr (fun a _ => rfl)
  have hconj : table.filter (resMatch (some rid) (some st))
      = table.filter
          (fun r => r.restaurant_id == rid && statusText r.status == st) :=
    List.filter_congr (fun r _ => by simp [resMatch, hr, hs])
  exact ⟨hall ▸ hAll.1, hAll.2, hconj ▸ hF.1, hF.2⟩

/-- C6 witness: a table stored out of date order, listed date-ascending both
unfiltered and under the conjunctive restaurant and status filter. -/
theorem reservation_list_order_and_filters_witness :
    ("r1" : String).isEmpty = false ∧
    ("pending" : String).isEmpty = false ∧
    get_reservations_result exampleReservations none none
      [exampleRowEarly, exampleRow] ∧
    get_reservations_result exampleReservations (some "r1") (some "pending")
      [exampleRowEarly, exampleRow] ∧
    ([exampleRowEarly, exampleRow].Perm exampleReservations ∧
      [exampleRowEarly, exampleRow].Pairwise resDateTimeLe ∧
      [exampleRowEarly, exampleRow].Perm (exampleReservations.filter
        (fun r => r.restaurant_id == "r1" && statusText r.status == "pending")) ∧
      [exampleRowEarly, exampleRow].Pairwise resDateTimeLe) :=
  ⟨by decide, by decide, by decide, by decide,
    reservation_list_order_and_filters exampleReservations "r1" "pending"
      (by decide) (by decide) _ _ (by decide) (by decide)⟩

/-- C8: for every non-empty restaurant id value, whatever characters it
contains, the query text built for the reservation list, the review list and
the review stats is a fixed constant with a `?` placeholder — the id only
ever enters the bound-parameter list — and the executed queries return
exactly the rows whose `restaurant_id` column equals the value. -/
theorem restaurant_id_parameterized_binding (rid : String)
    (h : rid.isEmpty = false) :
    (build_reservations_query (some rid) none).1
      = "SELECT * FROM reservations WHERE 1=1 AND restaurant_id = ? ORDER BY reservation_date, reservation_time" ∧
    (build_reservations_query (some rid) none).2 = [rid] ∧
    (build_reviews_query (some rid) none SortBy.created_at SortOrder.desc).1
      = "SELECT * FROM reviews WHERE 1=1 AND restaurant_id = ? ORDER BY created_at DESC" ∧
    (build_reviews_query (some rid) none SortBy.created_at SortOrder.desc).2
      = [rid] ∧
    (build_review_stats_query (some rid)).1
      = "SELECT AVG(rating) as avg_rating, COUNT(*) as total_reviews FROM reviews WHERE restaurant_id = ?" ∧
    (build_review_stats_query (some rid)).2 = [rid] ∧
    (∀ (table out : List Reservation),
      get_reservations_result table (some rid) none out →
        out.Perm (table.filter (fun r => r.restaurant_id == rid))) ∧
    (∀ (table out : List Review) (sb : SortBy) (o : SortOrder),
      get_reviews_result table (some rid) none sb o out →
        out.Perm (table.filter (fun r => r.restaurant_id == rid))) ∧
    (∀ table : List Review,
      (review_stats table (some rid)).total_reviews
        = (table.filter (fun r => r.restaurant_id == rid)).length) := by
  refine ⟨?_, ?_, ?_, ?_, ?_, ?_, ?_, ?_, ?_⟩
  · simp [build_reservations_query, h]
  · simp [build_reservations_query, h]
  · simp [build_reviews_query, h, sortByText, orderText]
  · simp [build_reviews_query, h]
  · simp [build_review_stats_query, h]
  · simp [build_review_stats_query, h]
  · intro table out hq
    have hfl : table.filter (resMatch (some rid) none)
        = table.filter (fun r => r.restaurant_id == rid) :=
      List.filter_congr (fun r _ => by simp [resMatch, h])
    exact hfl ▸ hq.1
  · intro table out sb o hq
    have hfl : table.filter (reviewMatch (some rid) none)
        = table.filter (fun r => r.restaurant_id == rid) :=
      List.filter_congr (fun r _ => by simp [reviewMatch, h])
    exact hfl ▸ hq.1
  · intro table
    have hfl : table.filter (reviewRestaurantFilter (some rid))
        = table.filter (fun r => r.restaurant_id == rid) :=
      List.filter_congr (fun r _ => by simp [reviewRestaurantFilter, h])
    simp only [review_stats, hfl]

/-- C8 witness: a restaurant id that is itself a SQL-injection payload leaves
the query text unchanged and lands verbatim in the parameter list. -/
theorem restaurant_id_parameterized_binding_witness :
    ("x; DROP TABLE reservations; --" : String).isEmpty = false ∧
    (build_reservations_query (some "x; DROP TABLE reservations; --") none).1
      = "SELECT * FROM reservations WHERE 1=1 AND restaurant_id = ? ORDER BY reservation_date, reservation_time" ∧
    (build_reservations_query (some "x; DROP TABLE reservations; --") none).2
      = ["x; DROP TABLE reservations; --"] ∧
    (build_review_stats_query (some "x; DROP TABLE reservations; --")).2
      = ["x; DROP TABLE reservations; --"] :=
  ⟨by decide,
    (restaurant_id_parameterized_binding _ (by decide)).1,
    (restaurant_id_parameterized_binding _ (by decide)).2.1,
    (restaurant_id_parameterized_binding _ (by decide)).2.2.2.2.2.1⟩

/-- C9: the stats aggregate returned by `get_reviews` never depends on the
`min_rating` filter — it is computed over all of the restaurant's reviews —
and on a concrete table with ratings 5 and 1 and `min_rating=4` the reported
`total_reviews` strictly exceeds the number of reviews listed in the same
response. -/
theorem stats_ignore_min_rating :
    (∀ (table : List Review) (rid : Option String) (m m2 : Option Int),
      get_reviews_stats table rid m = get_reviews_stats table rid m2) ∧
    (get_reviews_stats exampleReviewsMixed (some "r1") (some 4)).total_reviews
      > (exampleReviewsMixed.filter (reviewMatch (some "r1") (some 4))).length :=
  ⟨fun _ _ _ _ => rfl, by decide⟩

/-- C7 counterexample: the serialized stats object does not carry the field
names `avgRating` and `totalReviews`. -/
theorem stats_field_names_counterexample :
    (ReviewStats.toJson { avg_rating := none, total_reviews := 0 }).map
        Prod.fst
      ≠ ["avgRating", "totalReviews"] := by decide

/-- C7 amended: the stats portion of the reviews response has exactly the
shape of a nullable number and an integer count, but under the snake_case
field names `avg_rating` and `total_reviews`, alongside the `reviews`
array. -/
theorem stats_response_shape_amended (s : ReviewStats) (w : ReviewsWithStats) :
    (ReviewStats.toJson s).map Prod.fst = ["avg_rating", "total_reviews"] ∧
    (ReviewsWithStats.toJson w).map Prod.fst = ["reviews", "stats"] ∧
    ((s.avg_rating = none ∧
        (ReviewStats.toJson s).lookup "avg_rating" = some JsonVal.jnull) ∨
      (∃ q, s.avg_rating = some q ∧
        (ReviewStats.toJson s).lookup "avg_rating" = some (JsonVal.jnum q))) ∧
    (ReviewStats.toJson s).lookup "total_reviews"
      = some (JsonVal.jint (s.total_reviews : ℤ)) := by
  refine ⟨rfl, rfl, ?_, rfl⟩
  cases h : s.avg_rating with
  | none => exact Or.inl ⟨rfl, by simp only [ReviewStats.toJson, h]; rfl⟩
  | some q => exact Or.inr ⟨q, rfl, by simp only [ReviewStats.toJson, h]; rfl⟩

end RestaurantFinder
